import Mathlib

/-!
Shallow embedding of `src/templates/python/text_transform/main.py`.

The program is a single linear request/response cycle:
argv check, `json.loads` of the sole argument, two `dict.get` reads with
defaults, a three-way string dispatch, and one `print` of a JSON object.

Modelling choices:
* A Python string is its sequence of Unicode code points (`List Nat`).
* JSON-decodable Python values form the inductive `Json` (numbers as `Int`;
  the claims need no fractional values).
* `json.loads` is Python standard library, not repository code, so the
  whole-program model `pyMain` takes the decoder as a function argument
  `loads`; malformed input is its `Except.error` outcome.
* `str.upper` / `str.lower` are modelled per code point over the ASCII
  letters; the full Unicode tables are out of scope, which affects no claim
  (idempotence and the dispatch structure are what the claims use).
* A `print(x)` writes one newline-terminated line; stdout is modelled as the
  list of JSON values so printed, stderr as the list of messages written to
  the error stream, and an uncaught exception as a `traceback` entry there
  together with exit status 1 (CPython's behaviour).
-/

/-- A Python string, as its sequence of Unicode code points. -/
abbrev PyStr : Type := List Nat

/-- Code points of a Lean string literal, for writing concrete Python strings. -/
def pyStr (s : String) : PyStr := s.data.map Char.toNat

/-- A JSON-decodable Python value (`None`, `bool`, number, `str`, `list`, `dict`). -/
inductive Json : Type where
  | null : Json
  | bool (b : Bool) : Json
  | num (n : Int) : Json
  | str (s : PyStr) : Json
  | arr (elems : List Json) : Json
  | obj (fields : List (PyStr × Json)) : Json

/-- Whether a value is a Python `str`. -/
def Json.isStr : Json → Bool
  | Json.str _ => true
  | _ => false

/-- Whether a value is a Python `dict`. -/
def Json.isObj : Json → Bool
  | Json.obj _ => true
  | _ => false

/-- Exceptions the program can raise. -/
inductive PyExc : Type where
  | attributeError : PyExc
  | typeError : PyExc
  | jsonDecodeError : PyExc
deriving DecidableEq

/-- Python `dict.get(key, default)` on a dict built by inserting the pairs in
order, so a later duplicate key overrides an earlier one (as `json.loads`
builds its dicts). -/
def dictGet (fields : List (PyStr × Json)) (key : PyStr) (dflt : Json) : Json :=
  (fields.foldl (fun acc kv => if kv.1 = key then some kv.2 else acc) none).getD dflt

/-- `input_data.get(key, default)` (main.py lines 11-12): only a `dict` has a
`get` method; every other JSON-decodable value raises `AttributeError`. -/
def pyGet (j : Json) (key : PyStr) (dflt : Json) : Except PyExc Json :=
  match j with
  | Json.obj fields => Except.ok (dictGet fields key dflt)
  | _ => Except.error PyExc.attributeError

/-- Case conversion of one code point, lower to upper (ASCII letters). -/
def charUpper (c : Nat) : Nat := if 97 ≤ c ∧ c ≤ 122 then c - 32 else c

/-- Case conversion of one code point, upper to lower (ASCII letters). -/
def charLower (c : Nat) : Nat := if 65 ≤ c ∧ c ≤ 90 then c + 32 else c

/-- `str.upper` over the code-point sequence. -/
def pyStrUpper (s : PyStr) : PyStr := s.map charUpper

/-- `str.lower` over the code-point sequence. -/
def pyStrLower (s : PyStr) : PyStr := s.map charLower

/-- `s[::-1]` on a `str`: the code points reversed. -/
def pyStrReverse (s : PyStr) : PyStr := s.reverse

/-- `text.upper()` (main.py line 15): defined on `str`, `AttributeError` on
every other JSON-decodable value. -/
def pyUpper (j : Json) : Except PyExc Json :=
  match j with
  | Json.str s => Except.ok (Json.str (pyStrUpper s))
  | _ => Except.error PyExc.attributeError

/-- `text.lower()` (main.py line 17): defined on `str`, `AttributeError`
otherwise. -/
def pyLower (j : Json) : Except PyExc Json :=
  match j with
  | Json.str s => Except.ok (Json.str (pyStrLower s))
  | _ => Except.error PyExc.attributeError

/-- `text[::-1]` (main.py line 19): reverses a `str` or a `list`; every other
JSON-decodable value raises `TypeError` (not subscriptable, or unhashable
slice for `dict`). -/
def pySliceReverse (j : Json) : Except PyExc Json :=
  match j with
  | Json.str s => Except.ok (Json.str (pyStrReverse s))
  | Json.arr xs => Except.ok (Json.arr xs.reverse)
  | _ => Except.error PyExc.typeError

/-- Lines 11-21 of main.py: read `text` (default `""`) and `operation`
(default `"upper"`) from the parsed value, then dispatch. A non-`str`
operation compares unequal to every string literal, so it falls through to
the identity branch, exactly as Python `==` does. -/
def process (input : Json) : Except PyExc Json := do
  let text ← pyGet input (pyStr "text") (Json.str [])
  let op ← pyGet input (pyStr "operation") (Json.str (pyStr "upper"))
  match op with
  | Json.str o =>
    if o = pyStr "upper" then pyUpper text
    else if o = pyStr "lower" then pyLower text
    else if o = pyStr "reverse" then pySliceReverse text
    else Except.ok text
  | _ => Except.ok text

/-- A message written to the error stream: the usage line of main.py line 7,
or the traceback CPython prints for an uncaught exception. -/
inductive StderrOut : Type where
  | usage (line : PyStr) : StderrOut
  | traceback (e : PyExc) : StderrOut

/-- The observable outcome of one invocation: the JSON values printed to
standard output (each as one newline-terminated line), the messages written
to standard error, and the exit status. -/
structure Outcome : Type where
  stdout : List Json
  stderr : List StderrOut
  exitCode : Nat

/-- The usage line of main.py line 7: `Usage: {sys.argv[0]} <json_input>`. -/
def usageMsg (prog : PyStr) : PyStr := pyStr "Usage: " ++ prog ++ pyStr " <json_input>"

/-- The whole program (main.py lines 6-24). `loads` stands for `json.loads`;
`prog` is `sys.argv[0]` and `args` the arguments after it. With no argument
the usage message is printed and the process exits 1 without parsing; a
decode failure, or an exception out of `process`, aborts with a traceback and
exit status 1 before anything reaches standard output; otherwise the object
`{"result": r}` is printed and the process exits 0. -/
def pyMain (loads : PyStr → Except Unit Json) (prog : PyStr) (args : List PyStr) : Outcome :=
  match args with
  | [] => { stdout := [], stderr := [StderrOut.usage (usageMsg prog)], exitCode := 1 }
  | arg :: _ =>
    match loads arg with
    | Except.error _ =>
        { stdout := [], stderr := [StderrOut.traceback PyExc.jsonDecodeError], exitCode := 1 }
    | Except.ok input =>
        match process input with
        | Except.error e =>
            { stdout := [], stderr := [StderrOut.traceback e], exitCode := 1 }
        | Except.ok r =>
            { stdout := [Json.obj [(pyStr "result", r)]], stderr := [], exitCode := 0 }

/-- A fold that never sees its key leaves the accumulator unchanged. -/
theorem foldl_get_no_match (fields : List (PyStr × Json)) (key : PyStr)
    (acc : Option Json) (h : ∀ kv ∈ fields, kv.1 ≠ key) :
    fields.foldl (fun acc kv => if kv.1 = key then some kv.2 else acc) acc = acc := by
  induction fields generalizing acc with
  | nil => rfl
  | cons kv rest ih =>
    have hkv : kv.1 ≠ key := h kv (List.mem_cons_self kv rest)
    have hrest : ∀ kv ∈ rest, kv.1 ≠ key := fun kv hm => h kv (List.mem_cons_of_mem _ hm)
    simp [List.foldl_cons, if_neg hkv, ih _ hrest]

/-- If the key occurs nowhere in the dict, `get` returns the default. -/
theorem dictGet_no_match (fields : List (PyStr × Json)) (key : PyStr) (dflt : Json)
    (h : ∀ kv ∈ fields, kv.1 ≠ key) : dictGet fields key dflt = dflt := by
  simp [dictGet, foldl_get_no_match fields key none h]

/-- A leading pair whose key occurs nowhere later is the value `get` returns. -/
theorem dictGet_cons_self (k : PyStr) (v : Json) (fields : List (PyStr × Json)) (dflt : Json)
    (h : ∀ kv ∈ fields, kv.1 ≠ k) : dictGet ((k, v) :: fields) k dflt = v := by
  simp [dictGet, List.foldl_cons, foldl_get_no_match fields k _ h]

/-- A leading pair with a different key does not affect `get`. -/
theorem dictGet_cons_ne (k : PyStr) (v : Json) (fields : List (PyStr × Json))
    (key : PyStr) (dflt : Json) (h : k ≠ key) :
    dictGet ((k, v) :: fields) key dflt = dictGet fields key dflt := by
  simp [dictGet, List.foldl_cons, if_neg h]

/-- Upper-casing one code point is idempotent. -/
theorem charUpper_idem (c : Nat) : charUpper (charUpper c) = charUpper c := by
  unfold charUpper
  by_cases h : 97 ≤ c ∧ c ≤ 122
  · rw [if_pos h, if_neg (by omega)]
  · rw [if_neg h, if_neg h]

/-- Lower-casing one code point is idempotent. -/
theorem charLower_idem (c : Nat) : charLower (charLower c) = charLower c := by
  unfold charLower
  by_cases h : 65 ≤ c ∧ c ≤ 90
  · rw [if_pos h, if_neg (by omega)]
  · rw [if_neg h, if_neg h]

/-- On a dict input, `process` reads both fields and dispatches; this unfolds
the `Except` binds, which both succeed on a dict. -/
theorem process_obj (fields : List (PyStr × Json)) :
    process (Json.obj fields) =
      (match dictGet fields (pyStr "operation") (Json.str (pyStr "upper")) with
       | Json.str o =>
         if o = pyStr "upper" then pyUpper (dictGet fields (pyStr "text") (Json.str []))
         else if o = pyStr "lower" then pyLower (dictGet fields (pyStr "text") (Json.str []))
         else if o = pyStr "reverse" then
           pySliceReverse (dictGet fields (pyStr "text") (Json.str []))
         else Except.ok (dictGet fields (pyStr "text") (Json.str []))
       | _ => Except.ok (dictGet fields (pyStr "text") (Json.str []))) := rfl

/-- When the operation field reads as the string `o`, `process` is the
four-way dispatch of main.py lines 14-21 on `o`. -/
theorem process_obj_str (fields : List (PyStr × Json)) (o : PyStr)
    (hop : dictGet fields (pyStr "operation") (Json.str (pyStr "upper")) = Json.str o) :
    process (Json.obj fields) =
      (if o = pyStr "upper" then pyUpper (dictGet fields (pyStr "text") (Json.str []))
       else if o = pyStr "lower" then pyLower (dictGet fields (pyStr "text") (Json.str []))
       else if o = pyStr "reverse" then
         pySliceReverse (dictGet fields (pyStr "text") (Json.str []))
       else Except.ok (dictGet fields (pyStr "text") (Json.str []))) := by
  rw [process_obj, hop]

/-- C1: for every request whose operation is "upper", "lower" or "reverse" and
whose text is a string, the program prints the single newline-terminated JSON
object with field "result" holding respectively the uppercase of the text,
its lowercase, or its code points reversed, and exits with status 0. -/
theorem upper_lower_reverse_ok
    (loads : PyStr → Except Unit Json) (prog arg : PyStr) (rest : List PyStr)
    (fields : List (PyStr × Json)) (s o : PyStr)
    (hload : loads arg = Except.ok (Json.obj fields))
    (htext : dictGet fields (pyStr "text") (Json.str []) = Json.str s)
    (hop : dictGet fields (pyStr "operation") (Json.str (pyStr "upper")) = Json.str o)
    (hknown : o = pyStr "upper" ∨ o = pyStr "lower" ∨ o = pyStr "reverse") :
    pyMain loads prog (arg :: rest) =
      { stdout := [Json.obj [(pyStr "result", Json.str
          (if o = pyStr "upper" then pyStrUpper s
           else if o = pyStr "lower" then pyStrLower s
           else pyStrReverse s))]],
        stderr := [], exitCode := 0 } := by
  have hproc : process (Json.obj fields) = Except.ok (Json.str
      (if o = pyStr "upper" then pyStrUpper s
       else if o = pyStr "lower" then pyStrLower s
       else pyStrReverse s)) := by
    rw [process_obj_str fields o hop, htext]
    rcases hknown with h | h | h <;> subst h <;>
      simp [pyUpper, pyLower, pySliceReverse,
        (by decide : (pyStr "lower" = pyStr "upper") = False),
        (by decide : (pyStr "reverse" = pyStr "upper") = False),
        (by decide : (pyStr "reverse" = pyStr "lower") = False)]
  simp [pyMain, hload, hproc]

/-- C1 witness: the request with text "Hello" and operation "upper" yields
exit status 0 and the sole output line with result "HELLO". -/
theorem upper_lower_reverse_ok_witness :
    pyMain
      (fun _ => Except.ok (Json.obj
        [(pyStr "text", Json.str (pyStr "Hello")),
         (pyStr "operation", Json.str (pyStr "upper"))]))
      (pyStr "main.py") [pyStr "arg"] =
      { stdout := [Json.obj [(pyStr "result", Json.str
          (if pyStr "upper" = pyStr "upper" then pyStrUpper (pyStr "Hello")
           else if pyStr "upper" = pyStr "lower" then pyStrLower (pyStr "Hello")
           else pyStrReverse (pyStr "Hello")))]],
        stderr := [], exitCode := 0 } :=
  upper_lower_reverse_ok _ _ _ _ _ _ _ rfl rfl rfl (Or.inl rfl)

/-- C2: for every operation string other than "upper", "lower", "reverse" and
every string text `s`, the program succeeds with result exactly `s`. -/
theorem unknown_op_identity
    (loads : PyStr → Except Unit Json) (prog arg : PyStr) (rest : List PyStr)
    (fields : List (PyStr × Json)) (s o : PyStr)
    (hload : loads arg = Except.ok (Json.obj fields))
    (htext : dictGet fields (pyStr "text") (Json.str []) = Json.str s)
    (hop : dictGet fields (pyStr "operation") (Json.str (pyStr "upper")) = Json.str o)
    (h1 : o ≠ pyStr "upper") (h2 : o ≠ pyStr "lower") (h3 : o ≠ pyStr "reverse") :
    pyMain loads prog (arg :: rest) =
      { stdout := [Json.obj [(pyStr "result", Json.str s)]],
        stderr := [], exitCode := 0 } := by
  have hproc : process (Json.obj fields) = Except.ok (Json.str s) := by
    rw [process_obj_str fields o hop, htext, if_neg h1, if_neg h2, if_neg h3]
  simp [pyMain, hload, hproc]

/-- C2 witness: operation "bogus" on text "Hi" succeeds with result "Hi". -/
theorem unknown_op_identity_witness :
    pyMain
      (fun _ => Except.ok (Json.obj
        [(pyStr "text", Json.str (pyStr "Hi")),
         (pyStr "operation", Json.str (pyStr "bogus"))]))
      (pyStr "main.py") [pyStr "arg"] =
      { stdout := [Json.obj [(pyStr "result", Json.str (pyStr "Hi"))]],
        stderr := [], exitCode := 0 } :=
  unknown_op_identity _ _ _ _ _ _ _ rfl rfl rfl
    (by decide) (by decide) (by decide)

/-- C3: when the argument fails to decode as JSON, the program exits with a
non-zero status, a diagnostic on standard error, and an empty standard
output. -/
theorem malformed_json_fatal
    (loads : PyStr → Except Unit Json) (prog arg : PyStr) (rest : List PyStr)
    (hbad : loads arg = Except.error ()) :
    pyMain loads prog (arg :: rest) =
      { stdout := [],
        stderr := [StderrOut.traceback PyExc.jsonDecodeError], exitCode := 1 } := by
  simp [pyMain, hbad]

/-- C3 witness: a decoder that rejects its input produces the fatal outcome. -/
theorem malformed_json_fatal_witness :
    pyMain (fun _ => Except.error ()) (pyStr "main.py") [pyStr "\x7bbad"] =
      { stdout := [],
        stderr := [StderrOut.traceback PyExc.jsonDecodeError], exitCode := 1 } :=
  malformed_json_fatal _ _ _ _ rfl

/-- C4: with zero arguments the program prints the usage message to standard
error, exits non-zero, writes nothing to standard output, and never consults
the decoder: the outcome is the same under every `loads`. -/
theorem no_args_usage
    (loads loads2 : PyStr → Except Unit Json) (prog : PyStr) :
    pyMain loads prog [] =
      { stdout := [], stderr := [StderrOut.usage (usageMsg prog)], exitCode := 1 } ∧
    pyMain loads prog [] = pyMain loads2 prog [] :=
  ⟨rfl, rfl⟩

/-- C5: a missing "text" field is read as the empty string and a missing
"operation" field as "upper" -- a dict without the key processes identically
to one with the key set to the default; in particular the request with only
text "Hello" yields result "HELLO" and the request with only operation
"reverse" yields result "". -/
theorem missing_fields_defaults
    (f1 f2 : List (PyStr × Json))
    (h1 : ∀ kv ∈ f1, kv.1 ≠ pyStr "text")
    (h2 : ∀ kv ∈ f2, kv.1 ≠ pyStr "operation") :
    process (Json.obj f1) = process (Json.obj ((pyStr "text", Json.str []) :: f1))
    ∧ process (Json.obj f2) =
        process (Json.obj ((pyStr "operation", Json.str (pyStr "upper")) :: f2))
    ∧ pyMain (fun _ => Except.ok (Json.obj [(pyStr "text", Json.str (pyStr "Hello"))]))
        (pyStr "main.py") [pyStr "arg"] =
        { stdout := [Json.obj [(pyStr "result", Json.str (pyStr "HELLO"))]],
          stderr := [], exitCode := 0 }
    ∧ pyMain (fun _ => Except.ok (Json.obj [(pyStr "operation", Json.str (pyStr "reverse"))]))
        (pyStr "main.py") [pyStr "arg"] =
        { stdout := [Json.obj [(pyStr "result", Json.str [])]],
          stderr := [], exitCode := 0 } := by
  refine ⟨?_, ?_, rfl, rfl⟩
  · rw [process_obj, process_obj,
      dictGet_no_match f1 (pyStr "text") (Json.str []) h1,
      dictGet_cons_self (pyStr "text") (Json.str []) f1 (Json.str []) h1,
      dictGet_cons_ne (pyStr "text") (Json.str []) f1 (pyStr "operation")
        (Json.str (pyStr "upper")) (by decide)]
  · rw [process_obj, process_obj,
      dictGet_no_match f2 (pyStr "operation") (Json.str (pyStr "upper")) h2,
      dictGet_cons_self (pyStr "operation") (Json.str (pyStr "upper")) f2
        (Json.str (pyStr "upper")) h2,
      dictGet_cons_ne (pyStr "operation") (Json.str (pyStr "upper")) f2 (pyStr "text")
        (Json.str []) (by decide)]

/-- C5 witness: the defaults theorem applied to the empty dict, together with
its two concrete scenarios. -/
theorem missing_fields_defaults_witness :
    process (Json.obj []) = process (Json.obj [(pyStr "text", Json.str [])])
    ∧ process (Json.obj []) =
        process (Json.obj [(pyStr "operation", Json.str (pyStr "upper"))])
    ∧ pyMain (fun _ => Except.ok (Json.obj [(pyStr "text", Json.str (pyStr "Hello"))]))
        (pyStr "main.py") [pyStr "arg"] =
        { stdout := [Json.obj [(pyStr "result", Json.str (pyStr "HELLO"))]],
          stderr := [], exitCode := 0 }
    ∧ pyMain (fun _ => Except.ok (Json.obj [(pyStr "operation", Json.str (pyStr "reverse"))]))
        (pyStr "main.py") [pyStr "arg"] =
        { stdout := [Json.obj [(pyStr "result", Json.str [])]],
          stderr := [], exitCode := 0 } :=
  missing_fields_defaults [] [] (by simp) (by simp)

/-- C6: the "reverse" transform is an involution on strings. -/
theorem reverse_involution (s : PyStr) : pyStrReverse (pyStrReverse s) = s :=
  List.reverse_reverse s

/-- C7: the "upper" transform is idempotent, and so is the "lower"
transform. -/
theorem upper_lower_idempotent (s : PyStr) :
    pyStrUpper (pyStrUpper s) = pyStrUpper s
    ∧ pyStrLower (pyStrLower s) = pyStrLower s := by
  constructor <;>
    simp [pyStrUpper, pyStrLower, List.map_map, Function.comp,
      charUpper_idem, charLower_idem]

/-- C8: with two or more arguments, every argument after the first is
ignored: the outcome equals the outcome on the first argument alone,
whatever the extra arguments are. -/
theorem extra_args_ignored
    (loads : PyStr → Except Unit Json) (prog a : PyStr) (rest rest2 : List PyStr) :
    pyMain loads prog (a :: rest) = pyMain loads prog (a :: rest2)
    ∧ pyMain loads prog (a :: rest) = pyMain loads prog [a] :=
  ⟨rfl, rfl⟩

/-- C9: well-formed JSON whose top-level value is not an object aborts the
program with an uncaught AttributeError (from `.get` on a non-dict): exit
status non-zero, traceback on standard error, nothing on standard output. -/
theorem non_object_json_fatal
    (loads : PyStr → Except Unit Json) (prog arg : PyStr) (rest : List PyStr)
    (j : Json) (hload : loads arg = Except.ok j) (hnotobj : j.isObj = false) :
    pyMain loads prog (arg :: rest) =
      { stdout := [],
        stderr := [StderrOut.traceback PyExc.attributeError], exitCode := 1 } := by
  have hproc : process j = Except.error PyExc.attributeError := by
    cases j <;> first | rfl | simp [Json.isObj] at hnotobj
  simp [pyMain, hload, hproc]

/-- C9 witness: a top-level JSON array aborts with the AttributeError
outcome. -/
theorem non_object_json_fatal_witness :
    pyMain (fun _ => Except.ok (Json.arr [])) (pyStr "main.py") [pyStr "[]"] =
      { stdout := [],
        stderr := [StderrOut.traceback PyExc.attributeError], exitCode := 1 } :=
  non_object_json_fatal _ _ _ _ (Json.arr []) rfl rfl

/-- C10: a non-string "text" value `v` under an unrecognized operation still
succeeds and the result field holds `v` unchanged, while the same `v` under
operation "upper" or "lower" aborts the process with an uncaught
AttributeError and an empty standard output. -/
theorem non_string_text_behavior
    (loads : PyStr → Except Unit Json) (prog arg : PyStr) (rest : List PyStr)
    (fields : List (PyStr × Json)) (v : Json) (o : PyStr)
    (hload : loads arg = Except.ok (Json.obj fields))
    (htext : dictGet fields (pyStr "text") (Json.str []) = v)
    (hvs : v.isStr = false)
    (hop : dictGet fields (pyStr "operation") (Json.str (pyStr "upper")) = Json.str o) :
    ((o ≠ pyStr "upper" ∧ o ≠ pyStr "lower" ∧ o ≠ pyStr "reverse") →
      pyMain loads prog (arg :: rest) =
        { stdout := [Json.obj [(pyStr "result", v)]], stderr := [], exitCode := 0 })
    ∧ ((o = pyStr "upper" ∨ o = pyStr "lower") →
      pyMain loads prog (arg :: rest) =
        { stdout := [],
          stderr := [StderrOut.traceback PyExc.attributeError], exitCode := 1 }) := by
  constructor
  · rintro ⟨h1, h2, h3⟩
    have hproc : process (Json.obj fields) = Except.ok v := by
      rw [process_obj_str fields o hop, htext, if_neg h1, if_neg h2, if_neg h3]
    simp [pyMain, hload, hproc]
  · intro h
    have hup : pyUpper v = Except.error PyExc.attributeError := by
      cases v <;> first | rfl | simp [Json.isStr] at hvs
    have hlo : pyLower v = Except.error PyExc.attributeError := by
      cases v <;> first | rfl | simp [Json.isStr] at hvs
    have hproc : process (Json.obj fields) = Except.error PyExc.attributeError := by
      rw [process_obj_str fields o hop, htext]
      rcases h with h | h <;> subst h
      · rw [if_pos rfl]; exact hup
      · rw [if_neg (by decide), if_pos rfl]; exact hlo
    simp [pyMain, hload, hproc]

/-- C10 witness: text 5 with operation "bogus" succeeds with result 5; text 5
with operation "upper" aborts with the AttributeError outcome. -/
theorem non_string_text_behavior_witness :
    pyMain (fun _ => Except.ok (Json.obj
        [(pyStr "text", Json.num 5), (pyStr "operation", Json.str (pyStr "bogus"))]))
      (pyStr "main.py") [pyStr "arg"] =
      { stdout := [Json.obj [(pyStr "result", Json.num 5)]], stderr := [], exitCode := 0 }
    ∧ pyMain (fun _ => Except.ok (Json.obj
        [(pyStr "text", Json.num 5), (pyStr "operation", Json.str (pyStr "upper"))]))
      (pyStr "main.py") [pyStr "arg"] =
      { stdout := [],
        stderr := [StderrOut.traceback PyExc.attributeError], exitCode := 1 } :=
  ⟨(non_string_text_behavior _ (pyStr "main.py") (pyStr "arg") []
      [(pyStr "text", Json.num 5), (pyStr "operation", Json.str (pyStr "bogus"))]
      (Json.num 5) (pyStr "bogus") rfl rfl rfl rfl).1
      ⟨by decide, by decide, by decide⟩,
   (non_string_text_behavior _ (pyStr "main.py") (pyStr "arg") []
      [(pyStr "text", Json.num 5), (pyStr "operation", Json.str (pyStr "upper"))]
      (Json.num 5) (pyStr "upper") rfl rfl rfl rfl).2
      (Or.inl rfl)⟩
